import Mathlib

/-!
Verification of the query-execution and session-command pipeline of the
command-based SQL executor (`src/main.py`).

Python strings are modelled as lists of characters (`PyStr`); the ASCII
fragments of `str.upper`, `str.lower`, `str.strip`, `str.split`,
`str.startswith`, substring containment (`in`), `str.ljust` and
`sep.join` are embedded as executable functions on `PyStr`.  All inputs
exercised by the pipeline (SQL keywords, meta-commands) are ASCII, where
these models agree with Python exactly.

Interactive confirmation prompts are modelled by an oracle
`Nat → Resp` giving the operator's response to the n-th prompt of a
call; a `KeyboardInterrupt` during a prompt is the `Resp.interrupt`
response.  The database driver is modelled by an `ExecBehavior` value
describing what `cursor.execute`/`fetchall`/`description`/`rowcount`
do for the one statement under execution, and wall-clock readings are
opaque parameters: the claims under study never depend on their values,
only on where they are recorded.
-/

/-- Python strings as character lists. -/
abbrev PyStr := List Char

/-- Whitespace for Python `str.strip` / `str.split` (ASCII fragment:
space, tab, newline, carriage return, vertical tab, form feed). -/
def pyIsSpace (c : Char) : Bool :=
  c == ' ' || c == '\t' || c == '\n' || c == '\r' || c.toNat == 11 || c.toNat == 12

/-- Python `str.strip()`: drop whitespace from both ends. -/
def pyStrip (s : PyStr) : PyStr :=
  (((s.dropWhile pyIsSpace).reverse.dropWhile pyIsSpace)).reverse

/-- ASCII case mapping of one character for Python `str.upper()`. -/
def pyCharUpper (c : Char) : Char :=
  if 97 ≤ c.toNat && c.toNat ≤ 122 then Char.ofNat (c.toNat - 32) else c

/-- ASCII case mapping of one character for Python `str.lower()`. -/
def pyCharLower (c : Char) : Char :=
  if 65 ≤ c.toNat && c.toNat ≤ 90 then Char.ofNat (c.toNat + 32) else c

/-- Python `str.upper()` (ASCII fragment). -/
def pyUpper (s : PyStr) : PyStr := s.map pyCharUpper

/-- Python `str.lower()` (ASCII fragment). -/
def pyLower (s : PyStr) : PyStr := s.map pyCharLower

/-- Boolean prefix test, Python `str.startswith` for one candidate. -/
def pyStartsWith : PyStr → PyStr → Bool
  | _, [] => true
  | [], _ :: _ => false
  | c :: cs, p :: ps => c == p && pyStartsWith cs ps

/-- Python substring containment, the `needle in haystack` test on strings. -/
def containsSub (needle : PyStr) : PyStr → Bool
  | [] => pyStartsWith [] needle
  | c :: rest => pyStartsWith (c :: rest) needle || containsSub needle rest

/-- Python `str.startswith` with a tuple of candidate prefixes. -/
def startsWithAny (s : PyStr) (ps : List PyStr) : Bool :=
  ps.any (fun p => pyStartsWith s p)

/-- Worker for Python `str.split()`: `acc` holds the characters of the
current field in reverse; whitespace closes the field, and no empty
fields are produced. -/
def pySplitAux : PyStr → PyStr → List PyStr
  | [], acc => if acc.isEmpty then [] else [acc.reverse]
  | c :: rest, acc =>
    if pyIsSpace c then
      if acc.isEmpty then pySplitAux rest []
      else acc.reverse :: pySplitAux rest []
    else pySplitAux rest (c :: acc)

/-- Python `str.split()` with no separator: split on whitespace runs,
returning the non-empty fields. -/
def pySplit (s : PyStr) : List PyStr := pySplitAux s []

/-- Python `str.ljust`: pad on the right with spaces up to the width,
leave the string unchanged when it is already at least that wide. -/
def ljust (s : PyStr) (w : Nat) : PyStr :=
  s ++ List.replicate (w - s.length) ' '

/-- Python `sep.join(parts)` on strings. -/
def pyJoin (sep : PyStr) : List PyStr → PyStr
  | [] => []
  | [x] => x
  | x :: y :: t => x ++ sep ++ pyJoin sep (y :: t)

/-- Python slice `l[s:]` with a possibly negative start index. -/
def pySliceFrom (l : List α) (s : Int) : List α :=
  if s < 0 then l.drop (l.length - (-s).toNat) else l.drop s.toNat

/-- Last `n` elements of a list (all of it when it is shorter). -/
def takeLast (n : Nat) (l : List α) : List α := l.drop (l.length - n)

/-- Operator response to one interactive confirmation prompt: a typed
line, or a `KeyboardInterrupt` while the prompt is blocking. -/
inductive Resp where
  | text (s : PyStr)
  | interrupt
deriving Repr, DecidableEq

/-- `SQLExecutor.get_user_confirmation` (src/main.py:504-510): the typed
response is stripped and lowercased and accepted iff it is `y` or `yes`;
a `KeyboardInterrupt` is a decline. -/
def get_user_confirmation (r : Resp) : Bool :=
  match r with
  | .text s =>
    let response := pyLower (pyStrip s)
    response == "y".toList || response == "yes".toList
  | .interrupt => false

/-- Upper-cased, stripped query text, `query.upper().strip()`
(src/main.py:480 and 528). -/
def qUpper (query : PyStr) : PyStr := pyStrip (pyUpper query)

/-- Destructive-delete pattern of `validate_sql_safety`
(src/main.py:483): `DELETE` present and `WHERE` absent. -/
def deleteNoWhere (query_upper : PyStr) : Bool :=
  containsSub "DELETE".toList query_upper && !containsSub "WHERE".toList query_upper

/-- Destructive-drop pattern of `validate_sql_safety`
(src/main.py:493): `DROP TABLE` present. -/
def hasDropTable (query_upper : PyStr) : Bool :=
  containsSub "DROP TABLE".toList query_upper

/-- Veto message of the first safety check (src/main.py:490). -/
def msgDeleteCancelled : PyStr := "DELETE operation cancelled by user".toList

/-- Veto message of the second safety check (src/main.py:500). -/
def msgDropCancelled : PyStr := "DROP TABLE operation cancelled by user".toList

/-- Result of `validate_sql_safety`: the returned `(is_safe, message)`
pair together with the number of confirmation prompts that were issued. -/
structure SafetyResult where
  ok : Bool
  message : PyStr
  prompts : Nat
deriving Repr, DecidableEq

/-- Second half of `validate_sql_safety` (src/main.py:493-502): the
`DROP TABLE` check, reached with `k` prompts already issued. -/
def dropTableCheck (query_upper : PyStr) (oracle : Nat → Resp) (k : Nat) : SafetyResult :=
  if hasDropTable query_upper then
    if get_user_confirmation (oracle k) then ⟨true, [], k + 1⟩
    else ⟨false, msgDropCancelled, k + 1⟩
  else ⟨true, [], k⟩

/-- `SQLExecutor.validate_sql_safety` (src/main.py:478-502): the
`DELETE`-without-`WHERE` check with early return on decline, then the
`DROP TABLE` check; `prompts` counts the confirmation prompts issued. -/
def validate_sql_safety (query : PyStr) (oracle : Nat → Resp) : SafetyResult :=
  let query_upper := qUpper query
  if deleteNoWhere query_upper then
    if get_user_confirmation (oracle 0) then dropTableCheck query_upper oracle 1
    else ⟨false, msgDeleteCancelled, 1⟩
  else dropTableCheck query_upper oracle 0

/-- One recorded history entry (`QueryHistory.add_query`,
src/main.py:371-381): timestamp, stripped query text, wall-clock
duration (opaque units), affected-row count and optional error text. -/
structure HistoryEntry where
  timestamp : PyStr
  query : PyStr
  execution_time : Int
  rows_affected : Int
  error : Option PyStr
deriving Repr, DecidableEq

/-- State of `DatabaseManager` relevant to `execute_query`: whether a
connection handle is present (`is_connected`), the dialect tag
(`db_type`) and the auto-commit flag. -/
structure DBManager where
  connected : Bool
  db_type : PyStr
  auto_commit : Bool
deriving Repr, DecidableEq

/-- Behaviour of the native driver for the one statement under
execution: either it succeeds with fetched rows, a cursor description
(each entry a tuple whose first component is the column name) and a
row count, or it raises with a message. -/
inductive ExecBehavior where
  | ok (rows : List (List PyStr)) (description : Option (List (List PyStr))) (rowcount : Int)
  | raises (msg : PyStr)
deriving Repr, DecidableEq

/-- Payload of the `(success, payload)` pair returned by
`execute_query`: fetched rows, an affected-row count, or a message. -/
inductive Payload where
  | rows (rs : List (List PyStr))
  | affected (n : Int)
  | message (s : PyStr)
deriving Repr, DecidableEq

/-- Full observable outcome of one `execute_query` call: the returned
`(success, payload)` pair, the history after the call, how many times
`connection.commit()` was called, whether the driver was reached at
all, and the header list handed to the display formatter (present only
on the data-returning branch). -/
structure ExecResult where
  success : Bool
  payload : Payload
  history : List HistoryEntry
  commits : Nat
  driverCalled : Bool
  displayedHeaders : Option (List PyStr)
deriving Repr, DecidableEq

/-- Failure message when no connection is active (src/main.py:515). -/
def msgNoConnection : PyStr := "No database connection".toList

/-- Prefix wrapped around the driver message on an execution failure
(src/main.py:595). -/
def msgSqlErrorPrefix : PyStr := "SQL Error: ".toList

/-- Keyword prefixes classifying a statement as data-returning
(src/main.py:530). -/
def selectLikeKeywords : List PyStr :=
  ["SELECT".toList, "SHOW".toList, "DESCRIBE".toList, "EXPLAIN".toList]

/-- Column names extracted from `cursor.description`
(src/main.py:536-543): first component of each description tuple, empty
when the cursor has no description. -/
def descHeaders (description : Option (List (List PyStr))) : List PyStr :=
  match description with
  | none => []
  | some ds => ds.map (fun t => t.headD [])

/-- Dialect dispatch for header extraction (src/main.py:536-543): the
three supported dialects all take the first component of each
description tuple; any other tag yields no headers. -/
def headersFor (db_type : PyStr) (description : Option (List (List PyStr))) : List PyStr :=
  if db_type == "SQLite".toList then descHeaders description
  else if db_type == "MySQL".toList then descHeaders description
  else if db_type == "PostgreSQL".toList then descHeaders description
  else []

/-- `SQLExecutor.execute_query` (src/main.py:512-604).  Short-circuits
when no connection is active, then runs the Safety Gate; on veto it
returns the veto message with history untouched.  Otherwise the driver
is reached: an exception is absorbed into a failure entry appended to
history; a data-returning statement (prefix `SELECT`/`SHOW`/
`DESCRIBE`/`EXPLAIN` on the upper-cased stripped text) fetches rows and
headers and never commits; any other statement reads `cursor.rowcount`
and commits exactly when `auto_commit` is set. -/
def execute_query (db : DBManager) (history : List HistoryEntry) (query : PyStr)
    (oracle : Nat → Resp) (behavior : ExecBehavior)
    (timestamp : PyStr) (elapsed : Int) : ExecResult :=
  if !db.connected then
    ⟨false, .message msgNoConnection, history, 0, false, none⟩
  else
    let sr := validate_sql_safety query oracle
    if !sr.ok then
      ⟨false, .message sr.message, history, 0, false, none⟩
    else
      match behavior with
      | .raises msg =>
        let error_msg := msgSqlErrorPrefix ++ msg
        ⟨false, .message error_msg,
          history ++ [⟨timestamp, pyStrip query, elapsed, 0, some error_msg⟩],
          0, true, none⟩
      | .ok rows description rowcount =>
        if startsWithAny (qUpper query) selectLikeKeywords then
          ⟨true, .rows rows,
            history ++ [⟨timestamp, pyStrip query, elapsed, Int.ofNat rows.length, none⟩],
            0, true, some (headersFor db.db_type description)⟩
        else
          ⟨true, .affected rowcount,
            history ++ [⟨timestamp, pyStrip query, elapsed, rowcount, none⟩],
            if db.auto_commit then 1 else 0, true, none⟩

/-- In-memory and persisted history of `QueryHistory`: `memory` is the
`self.history` list, `persisted` what the last `save_history` wrote. -/
structure HistoryState where
  memory : List HistoryEntry
  persisted : List HistoryEntry
deriving Repr, DecidableEq

/-- `QueryHistory.save_history` (src/main.py:363-369): the persisted
form is `self.history[-100:]`, the most recent 100 entries. -/
def save_history (history : List HistoryEntry) : List HistoryEntry :=
  takeLast 100 history

/-- `QueryHistory.add_query` (src/main.py:371-381): append the entry to
the in-memory list, then persist its last 100 entries. -/
def add_query (st : HistoryState) (e : HistoryEntry) : HistoryState :=
  let h := st.memory ++ [e]
  ⟨h, save_history h⟩

/-- Any number of consecutive `add_query` calls. -/
def addMany (st : HistoryState) (es : List HistoryEntry) : HistoryState :=
  es.foldl add_query st

/-- Placeholder entry used for concrete history scenarios. -/
def blankEntry : HistoryEntry := ⟨[], [], 0, 0, none⟩

/-- `QueryHistory.get_history` (src/main.py:383-385): return the slice
`self.history[-limit:]`. -/
def get_history (history : List HistoryEntry) (limit : Int) : List HistoryEntry :=
  pySliceFrom history (-limit)

/-- Fixed no-rows message of `format_tabular_output` (src/main.py:441). -/
def noRowsMessage : PyStr :=
  "┌─ Query Result\n│  Status: No rows found\n│  Rows: 0\n└─ End of result".toList

/-- Python `max` over a list of naturals (the widths are lengths, so
the empty default 0 is never reached on the non-empty calls made by
the formatter). -/
def listMax (l : List Nat) : Nat := l.foldl max 0

/-- Column widths of `format_tabular_output` (src/main.py:444-448):
for each column index of the first row of `all_rows`, two more than
the maximum cell length of that column over all rows. -/
def col_widths (all_rows : List (List PyStr)) : List Nat :=
  (List.range (all_rows.headD []).length).map
    (fun i => listMax (all_rows.map (fun row => (row.getD i []).length)) + 2)

/-- Column widths as the spec states them: `2 + max(length(str(cell)))`
over the header cell and all row cells of each column. -/
def col_widths_spec (headers : List PyStr) (data : List (List PyStr)) : List Nat :=
  (List.range headers.length).map
    (fun i => 2 + listMax ((headers.getD i []).length ::
      data.map (fun r => (r.getD i []).length)))

/-- One border line of the grid (src/main.py:455, 464, 473): a left
corner, runs of `─` of each column width joined by the mid glyph, and a
right corner. -/
def borderLine (left mid right : Char) (ws : List Nat) : PyStr :=
  [left] ++ pyJoin [mid] (ws.map (fun w => List.replicate w '─')) ++ [right]

/-- One cell row of the grid (src/main.py:460, 469): cells left-justified
to their column widths, joined and enclosed by `│`. -/
def cellsLine (cells : List PyStr) (ws : List Nat) : PyStr :=
  ['│'] ++ pyJoin ['│'] (List.zipWith ljust cells ws) ++ ['│']

/-- Lines of the bordered grid built by `format_tabular_output`
(src/main.py:450-474) in order: top border, header row and separator
(all three only when headers are present), one row per data row, and
the bottom border. -/
def format_lines (data : List (List PyStr)) (headers : List PyStr) : List PyStr :=
  let all_rows := if headers.isEmpty then data else headers :: data
  let ws := col_widths all_rows
  (if headers.isEmpty then [] else [borderLine '┌' '┬' '┐' ws]) ++
  (if headers.isEmpty then []
    else [cellsLine headers ws, borderLine '├' '┼' '┤' ws]) ++
  data.map (fun row => cellsLine row ws) ++
  [borderLine '└' '┴' '┘' ws]

/-- `SQLExecutor.format_tabular_output` (src/main.py:438-476): the
fixed no-rows block when there is no data, otherwise the grid lines
joined by newlines. -/
def format_tabular_output (data : List (List PyStr)) (headers : List PyStr) : PyStr :=
  if data.isEmpty then noRowsMessage
  else pyJoin ['\n'] (format_lines data headers)

/-- What the session does in response to an `export` meta-command.
`exportCsv`/`exportTxt` stand for calls into the `ResultExporter` file
writers; they are the actions the spec promises. -/
inductive ExportAction where
  | usage
  | stub (export_type : PyStr) (filename : PyStr)
  | exportCsv (filename : PyStr) (data : List (List PyStr)) (headers : List PyStr)
  | exportTxt (filename : PyStr) (data : List (List PyStr)) (headers : List PyStr)
deriving Repr, DecidableEq

/-- `SQLExecutor.handle_export_command` (src/main.py:738-750): parse
`<csv|txt> <filename>`, then print a stub message; the `ResultExporter`
writers are never invoked. -/
def handle_export_command (params : PyStr) : ExportAction :=
  let parts := pySplit params
  if parts.length < 2 then .usage
  else .stub (pyLower (parts.getD 0 [])) (parts.getD 1 [])

/-- A character that is not an upper-case ASCII letter. -/
def notUpperChar (c : Char) : Bool := !(65 ≤ c.toNat && c.toNat ≤ 90)

/-- A string with no upper-case ASCII letter in it. -/
def lowerSafe (s : PyStr) : Bool := s.all notUpperChar

/-- Connection request produced by a `connect` meta-command; the
payload strings are what reaches `DatabaseManager.connect_*`. -/
inductive ConnectAction where
  | usage
  | sqlite (path : PyStr)
  | mysql (host user password database : PyStr)
  | postgresql (host user password database : PyStr)
  | invalid
deriving Repr, DecidableEq

/-- `SQLExecutor.handle_connect_command` (src/main.py:713-736): split
the parameter text, dispatch on the (re-lowercased) first field with
its arity check, and forward the positional fields to the backend. -/
def handle_connect_command (params : PyStr) : ConnectAction :=
  if (pySplit params).isEmpty then .usage
  else if pyLower ((pySplit params).getD 0 []) = "sqlite".toList ∧
      2 ≤ (pySplit params).length then
    .sqlite ((pySplit params).getD 1 [])
  else if pyLower ((pySplit params).getD 0 []) = "mysql".toList ∧
      5 ≤ (pySplit params).length then
    .mysql ((pySplit params).getD 1 []) ((pySplit params).getD 2 [])
      ((pySplit params).getD 3 []) ((pySplit params).getD 4 [])
  else if pyLower ((pySplit params).getD 0 []) = "postgresql".toList ∧
      5 ≤ (pySplit params).length then
    .postgresql ((pySplit params).getD 1 []) ((pySplit params).getD 2 [])
      ((pySplit params).getD 3 []) ((pySplit params).getD 4 [])
  else .invalid

/-- Session directive recognised by `handle_special_commands`;
`notSpecial` is the `return False` path (input treated as SQL). -/
inductive Command where
  | help
  | exitApp
  | changepassword
  | showHistory
  | clearScreen
  | showTables
  | describeTable (table : PyStr)
  | connectCmd (a : ConnectAction)
  | exportCmd (a : ExportAction)
  | autocommitOn
  | autocommitOff
  | commitCmd
  | rollbackCmd
  | notSpecial
deriving Repr, DecidableEq

/-- Reassignment `command = command.strip().lower()` at the top of
`handle_special_commands` (src/main.py:608). -/
def normCmd (command : PyStr) : PyStr := pyLower (pyStrip command)

/-- `SQLExecutor.handle_special_commands` (src/main.py:606-711): the
whole input line is stripped and lowercased first
(`command = command.strip().lower()`), then matched against the
meta-command surface; argument text for `\d`, `connect` and `export`
is cut out of the lowercased line. -/
def handle_special_commands (command : PyStr) : Command :=
  if normCmd command = "help".toList then .help
  else if normCmd command = "exit".toList then .exitApp
  else if normCmd command = "changepassword".toList then .changepassword
  else if normCmd command = "history".toList then .showHistory
  else if normCmd command = "clear".toList then .clearScreen
  else if pyStartsWith (normCmd command) "\\dt".toList then .showTables
  else if pyStartsWith (normCmd command) "\\d ".toList then
    .describeTable (pyStrip ((normCmd command).drop 3))
  else if pyStartsWith (normCmd command) "connect ".toList then
    .connectCmd (handle_connect_command ((normCmd command).drop 8))
  else if pyStartsWith (normCmd command) "export ".toList then
    .exportCmd (handle_export_command ((normCmd command).drop 7))
  else if normCmd command = "autocommit on".toList then .autocommitOn
  else if normCmd command = "autocommit off".toList then .autocommitOff
  else if normCmd command = "commit".toList then .commitCmd
  else if normCmd command = "rollback".toList then .rollbackCmd
  else .notSpecial

/-- The string payloads of a connect action carry no upper-case ASCII
letter. -/
def connectArgsLower : ConnectAction → Bool
  | .sqlite path => lowerSafe path
  | .mysql host user password database =>
    lowerSafe host && lowerSafe user && lowerSafe password && lowerSafe database
  | .postgresql host user password database =>
    lowerSafe host && lowerSafe user && lowerSafe password && lowerSafe database
  | _ => true

/-- The string payloads of an export action carry no upper-case ASCII
letter. -/
def exportArgsLower : ExportAction → Bool
  | .stub export_type filename => lowerSafe export_type && lowerSafe filename
  | .exportCsv filename _ _ => lowerSafe filename
  | .exportTxt filename _ _ => lowerSafe filename
  | .usage => true

/-- The string payloads of a session directive carry no upper-case
ASCII letter. -/
def commandArgsLower : Command → Bool
  | .describeTable table => lowerSafe table
  | .connectCmd a => connectArgsLower a
  | .exportCmd a => exportArgsLower a
  | _ => true

/-- C1: the Safety Gate vetoes iff the upper-cased, stripped text
contains `DELETE` without `WHERE` and the operator declines the first
prompt, or contains `DROP TABLE` and the operator declines the drop
prompt (prompt index 1 after a confirmed delete prompt, else 0); any
response other than `y`/`yes` after strip and lowercase — including an
empty line or an interrupt — is a decline; every other input is allowed
unconditionally with no prompt issued. -/
theorem c1_safety_gate_veto_iff (query : PyStr) (oracle : Nat → Resp) :
    ((validate_sql_safety query oracle).ok = false ↔
      (deleteNoWhere (qUpper query) = true ∧ get_user_confirmation (oracle 0) = false) ∨
      (hasDropTable (qUpper query) = true ∧
        get_user_confirmation
          (oracle (if deleteNoWhere (qUpper query) then 1 else 0)) = false)) ∧
    (deleteNoWhere (qUpper query) = false → hasDropTable (qUpper query) = false →
      validate_sql_safety query oracle = ⟨true, [], 0⟩) ∧
    get_user_confirmation .interrupt = false ∧
    get_user_confirmation (.text []) = false := by
  refine ⟨?_, ?_, rfl, by decide⟩
  · unfold validate_sql_safety dropTableCheck
    cases hdel : deleteNoWhere (qUpper query) <;>
      cases hdrop : hasDropTable (qUpper query) <;>
        cases hc0 : get_user_confirmation (oracle 0) <;>
          cases hc1 : get_user_confirmation (oracle 1) <;>
            simp [hdel, hdrop, hc0, hc1]
  · intro h1 h2
    simp [validate_sql_safety, dropTableCheck, h1, h2]

/-- Witness for C1 at concrete inputs: a plain `SELECT` is allowed with
no prompt regardless of the operator, and a `DELETE` without `WHERE`
whose prompt is declined by an empty line is vetoed. -/
theorem c1_safety_gate_veto_iff_witness :
    validate_sql_safety "SELECT * FROM users;".toList (fun _ => .interrupt) =
      ⟨true, [], 0⟩ ∧
    (validate_sql_safety "DELETE FROM users;".toList (fun _ => .text [])).ok = false := by
  constructor
  · exact (c1_safety_gate_veto_iff "SELECT * FROM users;".toList
      (fun _ => .interrupt)).2.1 (by decide) (by decide)
  · exact ((c1_safety_gate_veto_iff "DELETE FROM users;".toList
      (fun _ => .text [])).1).mpr (Or.inl ⟨by decide, by decide⟩)

/-- C2 (amended): on a connected session, for a query whose upper-cased
stripped text starts with `SELECT`/`SHOW`/`DESCRIBE`/`EXPLAIN` and which
passes the Safety Gate, `execute_query` succeeds with the fetched row
set (possibly empty) as its payload and never calls `commit` regardless
of `auto_commit`; the driver's column headers are computed and handed to
the display formatter, but are not part of the returned
`(success, payload)` pair. -/
theorem c2_select_rowset_no_commit (db : DBManager) (history : List HistoryEntry)
    (query : PyStr) (oracle : Nat → Resp) (rows : List (List PyStr))
    (description : Option (List (List PyStr))) (rowcount : Int)
    (timestamp : PyStr) (elapsed : Int)
    (hconn : db.connected = true)
    (hsafe : (validate_sql_safety query oracle).ok = true)
    (hsel : startsWithAny (qUpper query) selectLikeKeywords = true) :
    execute_query db history query oracle (.ok rows description rowcount) timestamp elapsed =
      ⟨true, .rows rows,
        history ++ [⟨timestamp, pyStrip query, elapsed, Int.ofNat rows.length, none⟩],
        0, true, some (headersFor db.db_type description)⟩ := by
  simp [execute_query, hconn, hsafe, hsel]

/-- Witness for C2 (amended) at a concrete input: an empty `SELECT`
result on a connected SQLite session succeeds with payload `rows []`,
appends one success entry, and performs zero commits. -/
theorem c2_select_rowset_no_commit_witness :
    execute_query ⟨true, "SQLite".toList, true⟩ [] "SELECT * FROM t;".toList
        (fun _ => .interrupt) (.ok [] (some [["id".toList]]) (-1)) [] 0 =
      ⟨true, .rows [],
        [⟨[], "SELECT * FROM t;".toList, 0, Int.ofNat 0, none⟩],
        0, true, some (headersFor "SQLite".toList (some [["id".toList]]))⟩ := by
  have h := c2_select_rowset_no_commit ⟨true, "SQLite".toList, true⟩ []
    "SELECT * FROM t;".toList (fun _ => .interrupt) [] (some [["id".toList]]) (-1) [] 0
    rfl (by decide) (by decide)
  rw [h]
  decide

/-- Counterexample to C2 as stated: the returned success outcome does
not carry the driver's column headers.  Two driver behaviours that
fetch the same rows under different cursor descriptions (`id` versus
`name`) produce identical `(success, payload)` pairs even though the
headers computed for display differ. -/
theorem c2_counterexample_headers_not_returned :
    (execute_query ⟨true, "SQLite".toList, true⟩ [] "SELECT * FROM t;".toList
        (fun _ => .interrupt) (.ok [["1".toList]] (some [["id".toList]]) (-1)) [] 0).success =
      (execute_query ⟨true, "SQLite".toList, true⟩ [] "SELECT * FROM t;".toList
        (fun _ => .interrupt) (.ok [["1".toList]] (some [["name".toList]]) (-1)) [] 0).success ∧
    (execute_query ⟨true, "SQLite".toList, true⟩ [] "SELECT * FROM t;".toList
        (fun _ => .interrupt) (.ok [["1".toList]] (some [["id".toList]]) (-1)) [] 0).payload =
      (execute_query ⟨true, "SQLite".toList, true⟩ [] "SELECT * FROM t;".toList
        (fun _ => .interrupt) (.ok [["1".toList]] (some [["name".toList]]) (-1)) [] 0).payload ∧
    (execute_query ⟨true, "SQLite".toList, true⟩ [] "SELECT * FROM t;".toList
        (fun _ => .interrupt) (.ok [["1".toList]] (some [["id".toList]]) (-1)) [] 0).displayedHeaders ≠
      (execute_query ⟨true, "SQLite".toList, true⟩ [] "SELECT * FROM t;".toList
        (fun _ => .interrupt) (.ok [["1".toList]] (some [["name".toList]]) (-1)) [] 0).displayedHeaders := by
  refine ⟨by decide, by decide, by decide⟩

/-- C3: on a connected session, for a non-data-returning statement that
passes the Safety Gate, `execute_query` succeeds with the affected-row
count as its payload and calls `commit` exactly once iff `auto_commit`
is set at call time (zero times otherwise). -/
theorem c3_effecting_commit_iff_autocommit (db : DBManager) (history : List HistoryEntry)
    (query : PyStr) (oracle : Nat → Resp) (rows : List (List PyStr))
    (description : Option (List (List PyStr))) (rowcount : Int)
    (timestamp : PyStr) (elapsed : Int)
    (hconn : db.connected = true)
    (hsafe : (validate_sql_safety query oracle).ok = true)
    (hnotsel : startsWithAny (qUpper query) selectLikeKeywords = false) :
    execute_query db history query oracle (.ok rows description rowcount) timestamp elapsed =
      ⟨true, .affected rowcount,
        history ++ [⟨timestamp, pyStrip query, elapsed, rowcount, none⟩],
        if db.auto_commit then 1 else 0, true, none⟩ ∧
    ((execute_query db history query oracle (.ok rows description rowcount)
        timestamp elapsed).commits = 1 ↔ db.auto_commit = true) := by
  have h : execute_query db history query oracle (.ok rows description rowcount)
      timestamp elapsed =
      ⟨true, .affected rowcount,
        history ++ [⟨timestamp, pyStrip query, elapsed, rowcount, none⟩],
        if db.auto_commit then 1 else 0, true, none⟩ := by
    simp [execute_query, hconn, hsafe, hnotsel]
  refine ⟨h, ?_⟩
  rw [h]
  cases hac : db.auto_commit <;> simp [hac]

/-- Witness for C3 at a concrete input: an `INSERT` on a connected
SQLite session with `auto_commit` on succeeds with `affected 1` and
performs exactly one commit. -/
theorem c3_effecting_commit_iff_autocommit_witness :
    execute_query ⟨true, "SQLite".toList, true⟩ [] "INSERT INTO t VALUES (1);".toList
        (fun _ => .interrupt) (.ok [] none 1) [] 0 =
      ⟨true, .affected 1,
        [⟨[], "INSERT INTO t VALUES (1);".toList, 0, 1, none⟩],
        1, true, none⟩ := by
  have h := c3_effecting_commit_iff_autocommit ⟨true, "SQLite".toList, true⟩ []
    "INSERT INTO t VALUES (1);".toList (fun _ => .interrupt) [] none 1 [] 0
    rfl (by decide) (by decide)
  rw [h.1]
  decide

/-- C4: when no connection is active, or when the Safety Gate vetoes,
`execute_query` returns failure with the driver never reached, zero
commits and the history exactly as it was (no entry recorded). -/
theorem c4_short_circuit_no_history (db : DBManager) (history : List HistoryEntry)
    (query : PyStr) (oracle : Nat → Resp) (behavior : ExecBehavior)
    (timestamp : PyStr) (elapsed : Int) :
    (db.connected = false →
      execute_query db history query oracle behavior timestamp elapsed =
        ⟨false, .message msgNoConnection, history, 0, false, none⟩) ∧
    (db.connected = true → (validate_sql_safety query oracle).ok = false →
      execute_query db history query oracle behavior timestamp elapsed =
        ⟨false, .message (validate_sql_safety query oracle).message,
          history, 0, false, none⟩) := by
  constructor
  · intro h
    simp [execute_query, h]
  · intro h1 h2
    simp [execute_query, h1, h2]

/-- Witness for C4 at concrete inputs: a query on a disconnected
session fails with `No database connection` and no history entry, and a
vetoed `DELETE` without `WHERE` on a connected session fails with the
veto message and no history entry. -/
theorem c4_short_circuit_no_history_witness :
    execute_query ⟨false, [], true⟩ [] "SELECT 1;".toList (fun _ => .interrupt)
        (.ok [] none 0) [] 0 =
      ⟨false, .message msgNoConnection, [], 0, false, none⟩ ∧
    execute_query ⟨true, "SQLite".toList, true⟩ [] "DELETE FROM t;".toList
        (fun _ => .interrupt) (.ok [] none 0) [] 0 =
      ⟨false, .message (validate_sql_safety "DELETE FROM t;".toList
          (fun _ => .interrupt)).message, [], 0, false, none⟩ := by
  constructor
  · exact (c4_short_circuit_no_history ⟨false, [], true⟩ [] "SELECT 1;".toList
      (fun _ => .interrupt) (.ok [] none 0) [] 0).1 rfl
  · exact (c4_short_circuit_no_history ⟨true, "SQLite".toList, true⟩ []
      "DELETE FROM t;".toList (fun _ => .interrupt) (.ok [] none 0) [] 0).2 rfl (by decide)

/-- C5: when the driver raises during execution on a connected session
past the Safety Gate, `execute_query` absorbs the exception and returns
normally with a failure payload carrying `SQL Error: ` plus the
driver's message, and appends exactly one history entry holding that
message with `rows_affected = 0`. -/
theorem c5_driver_error_recorded (db : DBManager) (history : List HistoryEntry)
    (query : PyStr) (oracle : Nat → Resp) (msg : PyStr)
    (timestamp : PyStr) (elapsed : Int)
    (hconn : db.connected = true)
    (hsafe : (validate_sql_safety query oracle).ok = true) :
    execute_query db history query oracle (.raises msg) timestamp elapsed =
      ⟨false, .message (msgSqlErrorPrefix ++ msg),
        history ++ [⟨timestamp, pyStrip query, elapsed, 0, some (msgSqlErrorPrefix ++ msg)⟩],
        0, true, none⟩ := by
  simp [execute_query, hconn, hsafe]

/-- Witness for C5 at a concrete input: a failing statement on a
connected session appends one error entry with `rows_affected = 0` and
returns the wrapped driver message. -/
theorem c5_driver_error_recorded_witness :
    execute_query ⟨true, "SQLite".toList, true⟩ [] "SELECT * FROM missing;".toList
        (fun _ => .interrupt) (.raises "no such table: missing".toList) [] 0 =
      ⟨false, .message (msgSqlErrorPrefix ++ "no such table: missing".toList),
        [⟨[], "SELECT * FROM missing;".toList, 0, 0,
          some (msgSqlErrorPrefix ++ "no such table: missing".toList)⟩],
        0, true, none⟩ := by
  have h := c5_driver_error_recorded ⟨true, "SQLite".toList, true⟩ []
    "SELECT * FROM missing;".toList (fun _ => .interrupt)
    "no such table: missing".toList [] 0 rfl (by decide)
  rw [h]
  decide

/-- Folding `add_query` over a list of entries appends them all to the
in-memory list and persists the last 100 of the final list. -/
theorem addMany_eq (es : List HistoryEntry) :
    ∀ m : List HistoryEntry,
      addMany ⟨m, save_history m⟩ es = ⟨m ++ es, save_history (m ++ es)⟩ := by
  induction es with
  | nil => intro m; simp [addMany]
  | cons e es ih =>
    intro m
    have step : addMany ⟨m, save_history m⟩ (e :: es) =
        addMany ⟨m ++ [e], save_history (m ++ [e])⟩ es := rfl
    rw [step, ih (m ++ [e])]
    simp

/-- C6 (amended): after any number of `add_query` calls the persisted
history never exceeds 100 entries and always consists of the
chronologically most recent entries (a suffix of length
`min 100 total`, oldest truncated first); the in-memory list itself is
plain unbounded appending. -/
theorem c6_persisted_history_bounded (init : List HistoryEntry) (es : List HistoryEntry) :
    (addMany ⟨init, save_history init⟩ es).memory = init ++ es ∧
    (addMany ⟨init, save_history init⟩ es).persisted.length ≤ 100 ∧
    (addMany ⟨init, save_history init⟩ es).persisted.length =
      min 100 (init ++ es).length ∧
    List.IsSuffix (addMany ⟨init, save_history init⟩ es).persisted
      (addMany ⟨init, save_history init⟩ es).memory := by
  rw [addMany_eq es init]
  refine ⟨rfl, ?_, ?_, ?_⟩
  · simp [save_history, takeLast]
    omega
  · simp [save_history, takeLast]
    omega
  · exact List.drop_suffix _ _

/-- Counterexample to C6 as stated: the history (the recorder's
`self.history` list, which `get_history` and the `history` command
read) does exceed 100 entries — after 101 `add_query` calls starting
from empty it holds 101 entries; only the persisted file is truncated. -/
theorem c6_counterexample_memory_unbounded :
    (addMany ⟨[], save_history []⟩ (List.replicate 101 blankEntry)).memory.length = 101 ∧
    ¬ (addMany ⟨[], save_history []⟩
        (List.replicate 101 blankEntry)).memory.length ≤ 100 := by
  have h := addMany_eq (List.replicate 101 blankEntry) []
  rw [h]
  refine ⟨by simp, by simp⟩

/-- C9 (amended): for every positive `limit`, `get_history` returns
exactly the last `min limit length` entries of the history in
chronological order — a suffix of the history of that length, the whole
history when it is shorter than `limit`.  (For `limit = 0` the slice
`history[-0:]` is the entire history, and a negative `limit` drops
entries from the front instead.) -/
theorem c9_get_history_last_entries (history : List HistoryEntry) (limit : Int)
    (hpos : 0 < limit) :
    get_history history limit = takeLast limit.toNat history ∧
    (get_history history limit).length = min limit.toNat history.length ∧
    List.IsSuffix (get_history history limit) history := by
  have hneg : (-limit) < 0 := by omega
  have hgh : get_history history limit = history.drop (history.length - limit.toNat) := by
    simp [get_history, pySliceFrom, hneg]
  refine ⟨hgh, ?_, ?_⟩
  · rw [hgh]
    simp
    omega
  · rw [hgh]
    exact List.drop_suffix _ _

/-- Witness for C9 (amended) at a concrete input: with three entries
and `limit = 2`, the last two entries are returned, in order. -/
theorem c9_get_history_last_entries_witness :
    get_history [blankEntry, blankEntry, blankEntry] 2 =
      takeLast (Int.toNat 2) [blankEntry, blankEntry, blankEntry] ∧
    (get_history [blankEntry, blankEntry, blankEntry] 2).length =
      min (Int.toNat 2) [blankEntry, blankEntry, blankEntry].length ∧
    List.IsSuffix (get_history [blankEntry, blankEntry, blankEntry] 2)
      [blankEntry, blankEntry, blankEntry] :=
  c9_get_history_last_entries [blankEntry, blankEntry, blankEntry] 2 (by decide)

/-- Counterexample to C9 as stated: with `limit = 0` the slice
`history[-0:]` is `history[0:]`, the whole history — one entry comes
back where the claim (for every integer limit) allows at most zero. -/
theorem c9_counterexample_zero_limit :
    get_history [blankEntry] 0 = [blankEntry] ∧
    ¬ (get_history [blankEntry] 0).length ≤ 0 := by
  refine ⟨by decide, by decide⟩

/-- The initial accumulator is a lower bound of a `max` fold. -/
theorem le_foldl_max : ∀ (l : List Nat) (b : Nat), b ≤ l.foldl max b
  | [], b => Nat.le_refl b
  | x :: t, b => Nat.le_trans (Nat.le_max_left b x) (le_foldl_max t (max b x))

/-- Every member of a list is bounded by a `max` fold over it. -/
theorem mem_le_foldl_max : ∀ (l : List Nat) (b a : Nat), a ∈ l → a ≤ l.foldl max b
  | [], _, _, h => absurd h (List.not_mem_nil _)
  | x :: t, b, a, h => by
    rcases List.mem_cons.mp h with rfl | hm
    · exact Nat.le_trans (Nat.le_max_right b a) (le_foldl_max t (max b a))
    · exact mem_le_foldl_max t (max b x) a hm

/-- Every member of a list is bounded by `listMax`. -/
theorem mem_le_listMax {a : Nat} {l : List Nat} (h : a ∈ l) : a ≤ listMax l :=
  mem_le_foldl_max l 0 a h

/-- Length of a Python join with a one-character separator. -/
theorem pyJoin_single_length (c : Char) : ∀ parts : List PyStr,
    (pyJoin [c] parts).length = (parts.map List.length).sum + (parts.length - 1)
  | [] => by simp [pyJoin]
  | [x] => by simp [pyJoin]
  | x :: y :: t => by
    have ih := pyJoin_single_length c (y :: t)
    simp [pyJoin] at ih ⊢
    omega

/-- Indexing a map over `List.range`. -/
theorem getD_map_range (f : Nat → Nat) (n i : Nat) (h : i < n) :
    ((List.range n).map f).getD i 0 = f i := by
  simp [List.getD_eq_getElem?_getD, List.getElem?_map, List.getElem?_range, h]

/-- `col_widths` produces one width per column of the first row. -/
theorem col_widths_length (all_rows : List (List PyStr)) :
    (col_widths all_rows).length = (all_rows.headD []).length := by
  simp [col_widths]

/-- The width of column `i` computed by `col_widths`. -/
theorem col_widths_getD (all_rows : List (List PyStr)) (i : Nat)
    (h : i < (all_rows.headD []).length) :
    (col_widths all_rows).getD i 0 =
      listMax (all_rows.map (fun row => (row.getD i []).length)) + 2 := by
  unfold col_widths
  exact getD_map_range _ _ i h

/-- The code's widths agree with the spec's `2 + max` formulation. -/
theorem col_widths_eq_spec (headers : List PyStr) (data : List (List PyStr)) :
    col_widths (headers :: data) = col_widths_spec headers data := by
  unfold col_widths col_widths_spec
  simp only [List.headD_cons, List.map_cons]
  apply List.map_congr_left
  intro i _
  omega

/-- Building a pointwise bound from indexed bounds. -/
theorem forall2_of_getD {α β : Type} {P : α → β → Prop} (d1 : α) (d2 : β) :
    ∀ (l1 : List α) (l2 : List β), l1.length = l2.length →
      (∀ i, i < l1.length → P (l1.getD i d1) (l2.getD i d2)) →
      List.Forall₂ P l1 l2
  | [], [], _, _ => .nil
  | a :: l1, b :: l2, hl, hp => by
    refine .cons (hp 0 (by simp)) (forall2_of_getD d1 d2 l1 l2 (by simpa using hl) ?_)
    intro i hi
    have := hp (i + 1) (by simpa using Nat.succ_lt_succ hi)
    simpa using this
  | [], _ :: _, hl, _ => by simp at hl
  | _ :: _, [], hl, _ => by simp at hl

/-- Every row of the table (header or data) fits inside the computed
column widths. -/
theorem row_fits_col_widths {headers : List PyStr} {data : List (List PyStr)}
    {row : List PyStr} (hmem : row ∈ headers :: data)
    (hlen : row.length = headers.length) :
    List.Forall₂ (fun (s : PyStr) w => s.length ≤ w) row (col_widths (headers :: data)) := by
  apply forall2_of_getD [] 0
  · rw [col_widths_length]
    simpa using hlen
  · intro i hi
    have hi' : i < ((headers :: data).headD []).length := by simpa using hlen ▸ hi
    rw [col_widths_getD (headers :: data) i hi']
    have hmem' : (row.getD i []).length ∈
        (headers :: data).map (fun r => (r.getD i []).length) :=
      List.mem_map_of_mem _ hmem
    exact Nat.le_trans (mem_le_listMax hmem') (Nat.le_add_right _ 2)

/-- Padding to a sufficient width yields exactly that width. -/
theorem ljust_length {s : PyStr} {w : Nat} (h : s.length ≤ w) :
    (ljust s w).length = w := by
  simp [ljust]
  omega

/-- Cell padding turns each column into its exact width. -/
theorem zipWith_ljust_map_length {cells : List PyStr} {ws : List Nat}
    (h : List.Forall₂ (fun (s : PyStr) w => s.length ≤ w) cells ws) :
    (List.zipWith ljust cells ws).map List.length = ws := by
  induction h with
  | nil => rfl
  | cons hab _ ih => simp [ljust_length hab, ih]

/-- Length of a border line: the column widths, one glyph between and
around them. -/
theorem borderLine_length (left mid right : Char) (ws : List Nat) (h : ws ≠ []) :
    (borderLine left mid right ws).length = ws.sum + ws.length + 1 := by
  have hlen : 0 < ws.length := List.length_pos.mpr h
  have hmap : (ws.map (fun w => List.replicate w '─')).map List.length = ws := by
    rw [List.map_map]
    simp [Function.comp_def]
  simp [borderLine, pyJoin_single_length, hmap]
  omega

/-- Length of a cell row whose cells fit their widths: the same total
as a border line. -/
theorem cellsLine_length {cells : List PyStr} {ws : List Nat}
    (h : List.Forall₂ (fun (s : PyStr) w => s.length ≤ w) cells ws) (hne : ws ≠ []) :
    (cellsLine cells ws).length = ws.sum + ws.length + 1 := by
  have hlen : 0 < ws.length := List.length_pos.mpr hne
  have hmap := zipWith_ljust_map_length h
  have hcount : (List.zipWith ljust cells ws).length = ws.length := by
    have := congrArg List.length hmap
    simpa using this
  simp [cellsLine, pyJoin_single_length, hmap, hcount]
  omega

/-- C7: for a non-empty rectangular result set with headers, the width
of column `i` equals `2 +` the maximum cell length over the header cell
and all data cells of that column (the code's `col_widths` agrees with
the spec's formula, and on the worked example
`render([["a","bb"],["ccc","d"]], ["X","Y"])` the widths are `[5,4]`),
and every line of the rendered grid — borders, header row, separator
and data rows — has the same total character width. -/
theorem c7_formatter_widths_aligned (data : List (List PyStr)) (headers : List PyStr)
    (_hd : data ≠ []) (hh : headers ≠ [])
    (hrect : ∀ r ∈ data, r.length = headers.length) :
    col_widths (headers :: data) = col_widths_spec headers data ∧
    (∀ line ∈ format_lines data headers,
      line.length = (col_widths (headers :: data)).sum + headers.length + 1) ∧
    col_widths (["X".toList, "Y".toList] ::
      [["a".toList, "bb".toList], ["ccc".toList, "d".toList]]) = [5, 4] := by
  refine ⟨col_widths_eq_spec headers data, ?_, by decide⟩
  intro line hline
  have hne : headers.isEmpty = false := by
    cases headers with
    | nil => exact absurd rfl hh
    | cons a t => rfl
  have hwlen : (col_widths (headers :: data)).length = headers.length := by
    rw [col_widths_length]
    rfl
  have hwne : col_widths (headers :: data) ≠ [] := by
    apply List.ne_nil_of_length_pos
    rw [hwlen]
    exact List.length_pos.mpr hh
  simp only [format_lines, hne, Bool.false_eq_true, if_false, List.mem_append,
    List.mem_cons, List.mem_singleton, List.mem_map, List.not_mem_nil,
    or_false, false_or] at hline
  rw [← hwlen]
  rcases hline with ((rfl | rfl | rfl) | ⟨row, hr, rfl⟩) | rfl
  · exact borderLine_length '┌' '┬' '┐' _ hwne
  · exact cellsLine_length
      (row_fits_col_widths (List.mem_cons_self headers data) rfl) hwne
  · exact borderLine_length '├' '┼' '┤' _ hwne
  · exact cellsLine_length
      (row_fits_col_widths (List.mem_cons_of_mem headers hr) (hrect row hr)) hwne
  · exact borderLine_length '└' '┴' '┘' _ hwne

/-- Witness for C7 at the worked example: widths `[5,4]`, every line of
the rendered grid 11 characters wide. -/
theorem c7_formatter_widths_aligned_witness :
    col_widths (["X".toList, "Y".toList] ::
      [["a".toList, "bb".toList], ["ccc".toList, "d".toList]]) =
      col_widths_spec ["X".toList, "Y".toList]
        [["a".toList, "bb".toList], ["ccc".toList, "d".toList]] ∧
    (∀ line ∈ format_lines [["a".toList, "bb".toList], ["ccc".toList, "d".toList]]
        ["X".toList, "Y".toList],
      line.length = (col_widths (["X".toList, "Y".toList] ::
        [["a".toList, "bb".toList], ["ccc".toList, "d".toList]])).sum +
        (["X".toList, "Y".toList] : List PyStr).length + 1) ∧
    col_widths (["X".toList, "Y".toList] ::
      [["a".toList, "bb".toList], ["ccc".toList, "d".toList]]) = [5, 4] :=
  c7_formatter_widths_aligned
    [["a".toList, "bb".toList], ["ccc".toList, "d".toList]]
    ["X".toList, "Y".toList] (by decide) (by decide) (by decide)

/-- C8 evaluation: at the failing input `export csv results.csv` (after
any `SELECT`), `handle_export_command` receives `csv results.csv` and
only prints the stub message — for every parameter string its action is
the usage message or the stub, never a `ResultExporter` write. -/
theorem c8_export_never_writes :
    handle_export_command "csv results.csv".toList =
      .stub "csv".toList "results.csv".toList ∧
    (∀ params : PyStr,
      handle_export_command params = .usage ∨
      ∃ t f, handle_export_command params = .stub t f) := by
  refine ⟨by decide, ?_⟩
  intro params
  by_cases h : (pySplit params).length < 2
  · left
    show (if (pySplit params).length < 2 then ExportAction.usage
      else ExportAction.stub (pyLower ((pySplit params).getD 0 []))
        ((pySplit params).getD 1 [])) = ExportAction.usage
    rw [if_pos h]
  · right
    refine ⟨pyLower ((pySplit params).getD 0 []), (pySplit params).getD 1 [], ?_⟩
    show (if (pySplit params).length < 2 then ExportAction.usage
      else ExportAction.stub (pyLower ((pySplit params).getD 0 []))
        ((pySplit params).getD 1 [])) = _
    rw [if_neg h]

/-- A valid code point keeps its value through `Char.ofNat`. -/
theorem char_ofNat_toNat {n : Nat} (h : n.isValidChar) : (Char.ofNat n).toNat = n := by
  simp [Char.ofNat, dif_pos h, Char.ofNatAux, Char.toNat, UInt32.toNat]

/-- `pyCharLower` never produces an upper-case ASCII letter. -/
theorem notUpperChar_pyCharLower (c : Char) : notUpperChar (pyCharLower c) = true := by
  unfold pyCharLower notUpperChar
  by_cases h : (65 ≤ c.toNat && c.toNat ≤ 90) = true
  · have hb : 65 ≤ c.toNat ∧ c.toNat ≤ 90 := by simpa using h
    rw [if_pos h]
    have hv : (c.toNat + 32).isValidChar := Or.inl (by omega)
    rw [char_ofNat_toNat hv]
    simp
    omega
  · rw [if_neg h]
    simp only [Bool.not_eq_true] at h
    simp [h]

/-- Lowercasing yields a string with no upper-case ASCII letter. -/
theorem lowerSafe_pyLower (s : PyStr) : lowerSafe (pyLower s) = true := by
  rw [lowerSafe, List.all_eq_true]
  intro x hx
  rcases List.mem_map.mp hx with ⟨c, _, rfl⟩
  exact notUpperChar_pyCharLower c

/-- `lowerSafe` is inherited by sublists. -/
theorem lowerSafe_of_sublist {s t : PyStr} (hsub : List.Sublist s t)
    (h : lowerSafe t = true) : lowerSafe s = true := by
  rw [lowerSafe, List.all_eq_true] at h ⊢
  intro c hc
  exact h c (hsub.subset hc)

/-- Stripping keeps only characters of the original string. -/
theorem pyStrip_sublist (s : PyStr) : List.Sublist (pyStrip s) s := by
  unfold pyStrip
  have h1 : List.Sublist (s.dropWhile pyIsSpace) s := List.dropWhile_sublist _
  have h2 : List.Sublist ((s.dropWhile pyIsSpace).reverse.dropWhile pyIsSpace)
      (s.dropWhile pyIsSpace).reverse := List.dropWhile_sublist _
  have h3 : List.Sublist ((s.dropWhile pyIsSpace).reverse.dropWhile pyIsSpace).reverse
      (s.dropWhile pyIsSpace) := by simpa using h2.reverse
  exact h3.trans h1

/-- Every field produced by the split worker satisfies a character
predicate holding on the input and the pending accumulator. -/
theorem pySplitAux_all {p : Char → Bool} :
    ∀ (s acc : PyStr), s.all p = true → acc.all p = true →
      ∀ part ∈ pySplitAux s acc, part.all p = true
  | [], acc, _, hacc, part, hp => by
    unfold pySplitAux at hp
    by_cases he : acc.isEmpty
    · simp [he] at hp
    · simp [he] at hp
      subst hp
      simpa using hacc
  | c :: rest, acc, hs, hacc, part, hp => by
    unfold pySplitAux at hp
    rw [List.all_cons, Bool.and_eq_true] at hs
    by_cases hsp : pyIsSpace c
    · rw [if_pos hsp] at hp
      by_cases he : acc.isEmpty
      · rw [if_pos he] at hp
        exact pySplitAux_all rest [] hs.2 rfl part hp
      · rw [if_neg he] at hp
        rcases List.mem_cons.mp hp with rfl | hp'
        · simpa using hacc
        · exact pySplitAux_all rest [] hs.2 rfl part hp'
    · rw [if_neg hsp] at hp
      exact pySplitAux_all rest (c :: acc) hs.2
        (by rw [List.all_cons, Bool.and_eq_true]; exact ⟨hs.1, hacc⟩) part hp

/-- Every field of a Python split satisfies a character predicate
holding on the input. -/
theorem pySplit_all {p : Char → Bool} {s : PyStr} (h : s.all p = true) :
    ∀ part ∈ pySplit s, part.all p = true :=
  fun part hp => pySplitAux_all s [] h rfl part hp

/-- Indexing into the fields of a split of a `lowerSafe` string stays
`lowerSafe` (out-of-range indices give the empty string). -/
theorem getD_pySplit_lowerSafe {params : PyStr} (h : lowerSafe params = true) (k : Nat) :
    lowerSafe ((pySplit params).getD k []) = true := by
  by_cases hk : k < (pySplit params).length
  · have hmem : (pySplit params).getD k [] ∈ pySplit params := by
      rw [List.getD_eq_getElem _ _ hk]
      exact (pySplit params).getElem_mem hk
    exact pySplit_all h _ hmem
  · rw [List.getD_eq_default _ _ (Nat.le_of_not_lt hk)]
    rfl

/-- `handle_connect_command` applied to a `lowerSafe` parameter string
forwards only `lowerSafe` fields. -/
theorem connect_args_lower {params : PyStr} (h : lowerSafe params = true) :
    connectArgsLower (handle_connect_command params) = true := by
  have hget := getD_pySplit_lowerSafe h
  unfold handle_connect_command
  split
  · rfl
  · split
    · exact hget 1
    · split
      · simp only [connectArgsLower, Bool.and_eq_true]
        exact ⟨⟨⟨hget 1, hget 2⟩, hget 3⟩, hget 4⟩
      · split
        · simp only [connectArgsLower, Bool.and_eq_true]
          exact ⟨⟨⟨hget 1, hget 2⟩, hget 3⟩, hget 4⟩
        · rfl

/-- `handle_export_command` applied to a `lowerSafe` parameter string
forwards only `lowerSafe` fields. -/
theorem export_args_lower {params : PyStr} (h : lowerSafe params = true) :
    exportArgsLower (handle_export_command params) = true := by
  have hget := getD_pySplit_lowerSafe h
  by_cases hlt : (pySplit params).length < 2
  · have : handle_export_command params = .usage := by
      show (if (pySplit params).length < 2 then ExportAction.usage
        else ExportAction.stub (pyLower ((pySplit params).getD 0 []))
          ((pySplit params).getD 1 [])) = ExportAction.usage
      rw [if_pos hlt]
    rw [this]
    rfl
  · have : handle_export_command params =
        .stub (pyLower ((pySplit params).getD 0 [])) ((pySplit params).getD 1 []) := by
      show (if (pySplit params).length < 2 then ExportAction.usage
        else ExportAction.stub (pyLower ((pySplit params).getD 0 []))
          ((pySplit params).getD 1 [])) = _
      rw [if_neg hlt]
    rw [this]
    simp only [exportArgsLower, Bool.and_eq_true]
    exact ⟨lowerSafe_pyLower _, hget 1⟩

/-- C10: every meta-command line is stripped and lowercased as a whole
before arguments are cut out, so every argument string forwarded to the
backend — SQLite path, MySQL/PostgreSQL host, user, password and
database, `\d` table name, export type and filename — contains no
upper-case ASCII letter; concretely, upper-case connection parameters
and table names typed by the operator arrive lowercased. -/
theorem c10_meta_args_lowercased :
    (∀ raw : PyStr, commandArgsLower (handle_special_commands raw) = true) ∧
    handle_special_commands "connect mysql DBHost Alice SeCrEt ShopDB".toList =
      .connectCmd (.mysql "dbhost".toList "alice".toList "secret".toList "shopdb".toList) ∧
    handle_special_commands "\\d Employees".toList =
      .describeTable "employees".toList := by
  refine ⟨?_, by decide, by decide⟩
  intro raw
  have hc : lowerSafe (normCmd raw) = true := lowerSafe_pyLower _
  have hdrop : ∀ n : Nat, lowerSafe ((normCmd raw).drop n) = true :=
    fun n => lowerSafe_of_sublist (List.drop_sublist n _) hc
  unfold handle_special_commands
  by_cases h1 : normCmd raw = "help".toList
  · rw [if_pos h1]
    rfl
  rw [if_neg h1]
  by_cases h2 : normCmd raw = "exit".toList
  · rw [if_pos h2]
    rfl
  rw [if_neg h2]
  by_cases h3 : normCmd raw = "changepassword".toList
  · rw [if_pos h3]
    rfl
  rw [if_neg h3]
  by_cases h4 : normCmd raw = "history".toList
  · rw [if_pos h4]
    rfl
  rw [if_neg h4]
  by_cases h5 : normCmd raw = "clear".toList
  · rw [if_pos h5]
    rfl
  rw [if_neg h5]
  by_cases h6 : pyStartsWith (normCmd raw) "\\dt".toList = true
  · rw [if_pos h6]
    rfl
  rw [if_neg h6]
  by_cases h7 : pyStartsWith (normCmd raw) "\\d ".toList = true
  · rw [if_pos h7]
    exact lowerSafe_of_sublist (pyStrip_sublist _) (hdrop 3)
  rw [if_neg h7]
  by_cases h8 : pyStartsWith (normCmd raw) "connect ".toList = true
  · rw [if_pos h8]
    exact connect_args_lower (hdrop 8)
  rw [if_neg h8]
  by_cases h9 : pyStartsWith (normCmd raw) "export ".toList = true
  · rw [if_pos h9]
    exact export_args_lower (hdrop 7)
  rw [if_neg h9]
  by_cases h10 : normCmd raw = "autocommit on".toList
  · rw [if_pos h10]
    rfl
  rw [if_neg h10]
  by_cases h11 : normCmd raw = "autocommit off".toList
  · rw [if_pos h11]
    rfl
  rw [if_neg h11]
  by_cases h12 : normCmd raw = "commit".toList
  · rw [if_pos h12]
    rfl
  rw [if_neg h12]
  by_cases h13 : normCmd raw = "rollback".toList
  · rw [if_pos h13]
    rfl
  rw [if_neg h13]
  rfl
